import Mathlib

/-!
Verification of LazyDevOps (src/main.go): a shallow embedding of the data
model, the vote summarizer, the check-status reducer, branch-reference
shortening and the two HTTP fetch control flows, with theorems settling the
specification claims.

Conventions of the embedding:
- Go `int` becomes `Int`; Go `time.Time` becomes `Int` (an absolute instant).
- Go string formatting `fmt.Sprintf("%d", n)` becomes `toString n`.
- HTTP calls are modelled by passing the outcome of each request (transport
  error, or a status code together with the decode outcomes of the body)
  explicitly to the pure function that mirrors the Go control flow.
-/

namespace LazyDevOps

/-! ## Data model (structs of src/main.go) -/

/-- Mirrors `identity` (main.go:28-31). -/
structure Identity where
  displayName : String
  uniqueName : String
deriving DecidableEq, Repr

/-- Mirrors `repositoryInfo` (main.go:33-36). -/
structure RepositoryInfo where
  id : String
  name : String
deriving DecidableEq, Repr

/-- Mirrors `reviewer` (main.go:38-41). -/
structure Reviewer where
  displayName : String
  vote : Int
deriving DecidableEq, Repr

/-- Mirrors `links` (main.go:43-47), flattened to the one field used. -/
structure Links where
  webHref : String
deriving DecidableEq, Repr

/-- Mirrors `pullRequest` (main.go:49-60); `creationDate` is an instant. -/
structure PullRequest where
  pullRequestId : Int
  title : String
  status : String
  creationDate : Int
  repository : RepositoryInfo
  createdBy : Identity
  sourceRefName : String
  targetRefName : String
  reviewers : List Reviewer
  links : Links
deriving DecidableEq, Repr

/-- Mirrors `prStatusContext` (main.go:62-65). -/
structure PrStatusContext where
  name : String
  genre : String
deriving DecidableEq, Repr

/-- Mirrors `prStatus` (main.go:67-74). -/
structure PrStatus where
  state : String
  description : String
  context : PrStatusContext
  targetUrl : String
  creationDate : Int
  updatedDate : Int
deriving DecidableEq, Repr

/-- Mirrors `prResponse` (main.go:23-26), the strict decode target. -/
structure PrResponse where
  value : List PullRequest
  count : Int
deriving DecidableEq, Repr

/-! ## Vote summarizer (`summarizeVotesTyped`, main.go:315-340) -/

/-- Mirrors `summarizeVotesTyped` (main.go:315-340).  The Go loop increments
`up` on `Vote > 0`, `down` on `Vote < 0` and `wait` otherwise (i.e. on
`Vote == 0`); each counter is the count of reviewers satisfying its test. -/
def summarizeVotesTyped (reviewers : List Reviewer) : String :=
  if reviewers.length = 0 then "0"
  else
    let up := reviewers.countP (fun r => decide (0 < r.vote))
    let down := reviewers.countP (fun r => decide (r.vote < 0))
    let wait := reviewers.countP (fun r => decide (r.vote = 0))
    if 0 < down then "-" ++ toString down ++ "/" ++ toString reviewers.length
    else if 0 < up then "+" ++ toString up ++ "/" ++ toString reviewers.length
    else if 0 < wait then "~" ++ toString wait ++ "/" ++ toString reviewers.length
    else toString reviewers.length

/-- The three vote classes of the Go loop partition the reviewer list. -/
lemma vote_counts_partition (rs : List Reviewer) :
    rs.countP (fun r => decide (0 < r.vote)) + rs.countP (fun r => decide (r.vote < 0))
      + rs.countP (fun r => decide (r.vote = 0)) = rs.length := by
  induction rs with
  | nil => rfl
  | cons r rs ih =>
    simp only [List.countP_cons, List.length_cons]
    rcases lt_trichotomy r.vote 0 with h | h | h
    · have e1 : decide (0 < r.vote) = false := decide_eq_false (by omega)
      have e2 : decide (r.vote < 0) = true := decide_eq_true h
      have e3 : decide (r.vote = 0) = false := decide_eq_false (by omega)
      simp [e1, e2, e3]; omega
    · have e1 : decide (0 < r.vote) = false := decide_eq_false (by omega)
      have e2 : decide (r.vote < 0) = false := decide_eq_false (by omega)
      have e3 : decide (r.vote = 0) = true := decide_eq_true h
      simp [e1, e2, e3]; omega
    · have e1 : decide (0 < r.vote) = true := decide_eq_true h
      have e2 : decide (r.vote < 0) = false := decide_eq_false (by omega)
      have e3 : decide (r.vote = 0) = false := decide_eq_false (by omega)
      simp [e1, e2, e3]; omega

/-- Unfolding of `summarizeVotesTyped` on a non-empty reviewer list. -/
lemma summarizeVotesTyped_eq (rs : List Reviewer) (h : ¬ rs.length = 0) :
    summarizeVotesTyped rs =
      (if 0 < rs.countP (fun r => decide (r.vote < 0)) then
        "-" ++ toString (rs.countP (fun r => decide (r.vote < 0))) ++ "/" ++ toString rs.length
      else if 0 < rs.countP (fun r => decide (0 < r.vote)) then
        "+" ++ toString (rs.countP (fun r => decide (0 < r.vote))) ++ "/" ++ toString rs.length
      else if 0 < rs.countP (fun r => decide (r.vote = 0)) then
        "~" ++ toString (rs.countP (fun r => decide (r.vote = 0))) ++ "/" ++ toString rs.length
      else toString rs.length) := by
  unfold summarizeVotesTyped
  rw [if_neg h]

/-- Claim C2: the vote summary is "0" for the empty list; otherwise, with
up/down/waiting the counts of positive/negative/zero votes and total the list
length, it is "-{down}/{total}" when down > 0, else "+{up}/{total}" when
up > 0, else "~{waiting}/{total}" when waiting > 0, else "{total}"; the
precedence down > up > waiting holds even when counts are mixed. -/
theorem vote_summary_format (rs : List Reviewer) :
    (rs = [] → summarizeVotesTyped rs = "0") ∧
    (rs ≠ [] →
      summarizeVotesTyped rs =
        (if 0 < (rs.filter (fun r => decide (r.vote < 0))).length then
          "-" ++ toString (rs.filter (fun r => decide (r.vote < 0))).length
            ++ "/" ++ toString rs.length
        else if 0 < (rs.filter (fun r => decide (0 < r.vote))).length then
          "+" ++ toString (rs.filter (fun r => decide (0 < r.vote))).length
            ++ "/" ++ toString rs.length
        else if 0 < (rs.filter (fun r => decide (r.vote = 0))).length then
          "~" ++ toString (rs.filter (fun r => decide (r.vote = 0))).length
            ++ "/" ++ toString rs.length
        else toString rs.length)) := by
  constructor
  · rintro rfl; rfl
  · intro h
    rw [summarizeVotesTyped_eq rs (by simpa using h)]
    simp only [List.countP_eq_length_filter]

/-- Claim C2 witness: reviewers with votes [5, -10, 0] summarize to "-1/3". -/
theorem vote_summary_format_witness :
    summarizeVotesTyped [⟨"a", 5⟩, ⟨"b", -10⟩, ⟨"c", 0⟩] = "-1/3" := by
  have h := (vote_summary_format [⟨"a", 5⟩, ⟨"b", -10⟩, ⟨"c", 0⟩]).2 (by decide)
  rw [h]; decide

/-- Claim C4: for every non-empty reviewer list the count reported in the
vote summary string never exceeds the total reviewer count (and is positive). -/
theorem vote_summary_count_bounded (rs : List Reviewer) (h : rs ≠ []) :
    ∃ n : Nat, 0 < n ∧ n ≤ rs.length ∧
      (summarizeVotesTyped rs = "-" ++ toString n ++ "/" ++ toString rs.length ∨
       summarizeVotesTyped rs = "+" ++ toString n ++ "/" ++ toString rs.length ∨
       summarizeVotesTyped rs = "~" ++ toString n ++ "/" ++ toString rs.length) := by
  have hlen : ¬ rs.length = 0 := by simpa using h
  have hpart := vote_counts_partition rs
  rw [summarizeVotesTyped_eq rs hlen]
  by_cases hd : 0 < rs.countP (fun r => decide (r.vote < 0))
  · exact ⟨_, hd, List.countP_le_length _, Or.inl (by rw [if_pos hd])⟩
  · by_cases hu : 0 < rs.countP (fun r => decide (0 < r.vote))
    · exact ⟨_, hu, List.countP_le_length _,
        Or.inr (Or.inl (by rw [if_neg hd, if_pos hu]))⟩
    · have hw : 0 < rs.countP (fun r => decide (r.vote = 0)) := by omega
      exact ⟨_, hw, List.countP_le_length _,
        Or.inr (Or.inr (by rw [if_neg hd, if_neg hu, if_pos hw]))⟩

/-- Claim C4 witness: a single zero-vote reviewer reports "~1/1", a count
bounded by the total of 1. -/
theorem vote_summary_count_bounded_witness :
    ([⟨"a", 0⟩] : List Reviewer) ≠ [] ∧
      ∃ n : Nat, 0 < n ∧ n ≤ ([⟨"a", 0⟩] : List Reviewer).length ∧
        (summarizeVotesTyped [⟨"a", 0⟩]
            = "-" ++ toString n ++ "/" ++ toString ([⟨"a", 0⟩] : List Reviewer).length ∨
         summarizeVotesTyped [⟨"a", 0⟩]
            = "+" ++ toString n ++ "/" ++ toString ([⟨"a", 0⟩] : List Reviewer).length ∨
         summarizeVotesTyped [⟨"a", 0⟩]
            = "~" ++ toString n ++ "/" ++ toString ([⟨"a", 0⟩] : List Reviewer).length) :=
  ⟨by decide, vote_summary_count_bounded [⟨"a", 0⟩] (by decide)⟩

/-! ## Status reducer (post-decode part of `getPRStatusOverall`, main.go:264-307) -/

/-- Models Go `strings.ToLower` (main.go:275); ASCII case folding, which is
what the comparisons against the all-ASCII state literals exercise.  Defined
on the character list so that it evaluates by kernel reduction. -/
def toLowerStr (s : String) : String := ⟨s.data.map Char.toLower⟩

/-- The `case "succeeded", "success"` test of the Go switch (on the lowered state). -/
def isSucceededState (t : String) : Bool := t == "succeeded" || t == "success"

/-- The `case "pending", "inprogress", "in_progress"` test of the Go switch. -/
def isPendingState (t : String) : Bool := t == "pending" || t == "inprogress" || t == "in_progress"

/-- The `case "failed", "failure"` test of the Go switch. -/
def isFailedState (t : String) : Bool := t == "failed" || t == "failure"

/-- The `case "error"` test of the Go switch. -/
def isErrorState (t : String) : Bool := t == "error"

/-- The `case "notapplicable", "not_applicable", "notset"` test of the Go switch. -/
def isNeutralState (t : String) : Bool := t == "notapplicable" || t == "not_applicable" || t == "notset"

/-- The five booleans of the loop in `getPRStatusOverall` (main.go:268-272). -/
structure StatusFlags where
  anyPending : Bool
  anyFailed : Bool
  anyError : Bool
  anySucceeded : Bool
  allSucceededOrNA : Bool
deriving DecidableEq, Repr

/-- Initial flag values (main.go:268-272). -/
def initialFlags : StatusFlags := ⟨false, false, false, false, true⟩

/-- One iteration of the loop body (the switch, main.go:274-294); the Go
switch on disjoint literal sets is an if-chain of the membership tests. -/
def updateFlags (f : StatusFlags) (s : PrStatus) : StatusFlags :=
  if isSucceededState (toLowerStr s.state) then { f with anySucceeded := true }
  else if isPendingState (toLowerStr s.state) then { f with anyPending := true, allSucceededOrNA := false }
  else if isFailedState (toLowerStr s.state) then { f with anyFailed := true, allSucceededOrNA := false }
  else if isErrorState (toLowerStr s.state) then { f with anyError := true, allSucceededOrNA := false }
  else if isNeutralState (toLowerStr s.state) then f
  else { f with allSucceededOrNA := false }

/-- The final cascade of `getPRStatusOverall` (main.go:296-306). -/
def overallFromFlags (f : StatusFlags) : String :=
  if f.anyFailed || f.anyError then "Failed"
  else if f.anyPending then "In Progress"
  else if f.anySucceeded && f.allSucceededOrNA then "Passed"
  else "Unknown"

/-- The reduction of a decoded status list in `getPRStatusOverall`
(main.go:264-307): empty check, flag loop, final cascade. -/
def reduceStatuses (statuses : List PrStatus) : String :=
  if statuses.length = 0 then "No checks"
  else overallFromFlags (statuses.foldl updateFlags initialFlags)

/-- A succeeded-like state is in none of the other classes. -/
lemma succeeded_disjoint {t : String} (h : isSucceededState t = true) :
    isPendingState t = false ∧ isFailedState t = false ∧ isErrorState t = false ∧
      isNeutralState t = false := by
  simp only [isSucceededState, Bool.or_eq_true, beq_iff_eq] at h
  rcases h with h | h <;> subst h <;> decide

/-- A pending-like state is in none of the later classes. -/
lemma pending_disjoint {t : String} (h : isPendingState t = true) :
    isFailedState t = false ∧ isErrorState t = false ∧ isNeutralState t = false := by
  simp only [isPendingState, Bool.or_eq_true, beq_iff_eq] at h
  rcases h with (h | h) | h <;> subst h <;> decide

/-- A failed-like state is in none of the later classes. -/
lemma failed_disjoint {t : String} (h : isFailedState t = true) :
    isErrorState t = false ∧ isNeutralState t = false := by
  simp only [isFailedState, Bool.or_eq_true, beq_iff_eq] at h
  rcases h with h | h <;> subst h <;> decide

/-- An error state is not neutral. -/
lemma error_disjoint {t : String} (h : isErrorState t = true) :
    isNeutralState t = false := by
  simp only [isErrorState, beq_iff_eq] at h
  subst h; decide

lemma updateFlags_anySucceeded (f : StatusFlags) (s : PrStatus) :
    (updateFlags f s).anySucceeded = (f.anySucceeded || isSucceededState (toLowerStr s.state)) := by
  unfold updateFlags
  split_ifs with h1 h2 h3 h4 h5 <;> simp_all

lemma updateFlags_anyPending (f : StatusFlags) (s : PrStatus) :
    (updateFlags f s).anyPending = (f.anyPending || isPendingState (toLowerStr s.state)) := by
  unfold updateFlags
  split_ifs with h1 h2 h3 h4 h5 <;> simp_all [(succeeded_disjoint · |>.1)]

lemma updateFlags_anyFailed (f : StatusFlags) (s : PrStatus) :
    (updateFlags f s).anyFailed = (f.anyFailed || isFailedState (toLowerStr s.state)) := by
  unfold updateFlags
  split_ifs with h1 h2 h3 h4 h5 <;>
    simp_all [(succeeded_disjoint · |>.2.1), (pending_disjoint · |>.1)]

lemma updateFlags_anyError (f : StatusFlags) (s : PrStatus) :
    (updateFlags f s).anyError = (f.anyError || isErrorState (toLowerStr s.state)) := by
  unfold updateFlags
  split_ifs with h1 h2 h3 h4 h5 <;>
    simp_all [(succeeded_disjoint · |>.2.2.1), (pending_disjoint · |>.2.1),
      (failed_disjoint · |>.1)]

lemma updateFlags_allSucceededOrNA (f : StatusFlags) (s : PrStatus) :
    (updateFlags f s).allSucceededOrNA
      = (f.allSucceededOrNA && (isSucceededState (toLowerStr s.state) || isNeutralState (toLowerStr s.state))) := by
  unfold updateFlags
  split_ifs with h1 h2 h3 h4 h5 <;>
    simp_all [(pending_disjoint · |>.2.2), (failed_disjoint · |>.2), error_disjoint]

lemma foldl_anySucceeded (l : List PrStatus) (f : StatusFlags) :
    (l.foldl updateFlags f).anySucceeded
      = (f.anySucceeded || l.any (fun s => isSucceededState (toLowerStr s.state))) := by
  induction l generalizing f with
  | nil => simp
  | cons s l ih =>
    rw [List.foldl_cons, ih, updateFlags_anySucceeded]
    simp [List.any_cons, Bool.or_assoc]

lemma foldl_anyPending (l : List PrStatus) (f : StatusFlags) :
    (l.foldl updateFlags f).anyPending
      = (f.anyPending || l.any (fun s => isPendingState (toLowerStr s.state))) := by
  induction l generalizing f with
  | nil => simp
  | cons s l ih =>
    rw [List.foldl_cons, ih, updateFlags_anyPending]
    simp [List.any_cons, Bool.or_assoc]

lemma foldl_anyFailed (l : List PrStatus) (f : StatusFlags) :
    (l.foldl updateFlags f).anyFailed
      = (f.anyFailed || l.any (fun s => isFailedState (toLowerStr s.state))) := by
  induction l generalizing f with
  | nil => simp
  | cons s l ih =>
    rw [List.foldl_cons, ih, updateFlags_anyFailed]
    simp [List.any_cons, Bool.or_assoc]

lemma foldl_anyError (l : List PrStatus) (f : StatusFlags) :
    (l.foldl updateFlags f).anyError
      = (f.anyError || l.any (fun s => isErrorState (toLowerStr s.state))) := by
  induction l generalizing f with
  | nil => simp
  | cons s l ih =>
    rw [List.foldl_cons, ih, updateFlags_anyError]
    simp [List.any_cons, Bool.or_assoc]

lemma foldl_allSucceededOrNA (l : List PrStatus) (f : StatusFlags) :
    (l.foldl updateFlags f).allSucceededOrNA
      = (f.allSucceededOrNA
          && l.all (fun s => isSucceededState (toLowerStr s.state) || isNeutralState (toLowerStr s.state))) := by
  induction l generalizing f with
  | nil => simp
  | cons s l ih =>
    rw [List.foldl_cons, ih, updateFlags_allSucceededOrNA]
    simp [List.all_cons, Bool.and_assoc]

lemma any_or_split {α : Type} (l : List α) (p q : α → Bool) :
    l.any (fun x => p x || q x) = (l.any p || l.any q) := by
  induction l with
  | nil => rfl
  | cons a l ih =>
    simp [List.any_cons, ih, Bool.or_assoc, Bool.or_comm, Bool.or_left_comm]

/-- `reduceStatuses` equals the precedence cascade over existential and
universal tests of the state classes. -/
lemma reduceStatuses_eq_spec (statuses : List PrStatus) :
    reduceStatuses statuses =
      (if statuses.length = 0 then "No checks"
      else if statuses.any
          (fun s => isFailedState (toLowerStr s.state) || isErrorState (toLowerStr s.state)) then "Failed"
      else if statuses.any (fun s => isPendingState (toLowerStr s.state)) then "In Progress"
      else if statuses.any (fun s => isSucceededState (toLowerStr s.state))
          && statuses.all
            (fun s => isSucceededState (toLowerStr s.state) || isNeutralState (toLowerStr s.state)) then
        "Passed"
      else "Unknown") := by
  unfold reduceStatuses
  by_cases h : statuses.length = 0
  · rw [if_pos h, if_pos h]
  · rw [if_neg h, if_neg h]
    unfold overallFromFlags
    rw [foldl_anyFailed, foldl_anyError, foldl_anyPending, foldl_anySucceeded,
      foldl_allSucceededOrNA, any_or_split]
    simp [initialFlags]

/-- Claim C1: for every decoded status list, the overall label follows the
precedence failed/error > pending > passed > unknown, case-insensitively on
the state: any failed-like or error-like record gives "Failed"; else any
pending-like record gives "In Progress"; else at least one succeeded-like
record with every record succeeded-like or neutral gives "Passed"; else
"Unknown"; the empty list gives "No checks". -/
theorem overall_status_precedence (statuses : List PrStatus) :
    reduceStatuses statuses =
      (if statuses = [] then "No checks"
      else if statuses.any
          (fun s => isFailedState (toLowerStr s.state) || isErrorState (toLowerStr s.state)) then "Failed"
      else if statuses.any (fun s => isPendingState (toLowerStr s.state)) then "In Progress"
      else if statuses.any (fun s => isSucceededState (toLowerStr s.state))
          && statuses.all
            (fun s => isSucceededState (toLowerStr s.state) || isNeutralState (toLowerStr s.state)) then
        "Passed"
      else "Unknown") := by
  rw [reduceStatuses_eq_spec]
  rcases statuses with _ | ⟨s, l⟩ <;> simp

/-- Claim C3: the status reduction is a pure function of the multiset of
statuses: permuting the input list never changes the overall label. -/
theorem overall_status_perm_invariant (l₁ l₂ : List PrStatus) (h : l₁.Perm l₂) :
    reduceStatuses l₁ = reduceStatuses l₂ := by
  have hany : ∀ p : PrStatus → Bool, l₁.any p = l₂.any p := by
    intro p
    rw [Bool.eq_iff_iff]
    simp only [List.any_eq_true]
    exact ⟨fun ⟨x, hm, hp⟩ => ⟨x, h.mem_iff.mp hm, hp⟩,
      fun ⟨x, hm, hp⟩ => ⟨x, h.mem_iff.mpr hm, hp⟩⟩
  have hall : ∀ p : PrStatus → Bool, l₁.all p = l₂.all p := by
    intro p
    rw [Bool.eq_iff_iff]
    simp only [List.all_eq_true]
    exact ⟨fun ha x hm => ha x (h.mem_iff.mpr hm), fun ha x hm => ha x (h.mem_iff.mp hm)⟩
  rw [reduceStatuses_eq_spec, reduceStatuses_eq_spec, h.length_eq, hany, hany, hany, hall]

/-- A sample failed check status. -/
def sampleFailed : PrStatus := ⟨"failed", "", ⟨"", ""⟩, "", 0, 0⟩

/-- A sample succeeded check status (mixed case, exercising `toLower`). -/
def sampleSucceeded : PrStatus := ⟨"Succeeded", "", ⟨"", ""⟩, "", 5, 5⟩

/-- Claim C3 witness: swapping a two-element status list leaves the overall
label unchanged. -/
theorem overall_status_perm_invariant_witness :
    ([sampleSucceeded, sampleFailed] : List PrStatus).Perm [sampleFailed, sampleSucceeded] ∧
      reduceStatuses [sampleSucceeded, sampleFailed]
        = reduceStatuses [sampleFailed, sampleSucceeded] :=
  ⟨by decide, overall_status_perm_invariant _ _ (by decide)⟩

/-! ## Branch-reference shortening (`refShort`, main.go:309-313) -/

/-- Models Go `strings.TrimPrefix`: drop `pre` from the front of `s` when it
is a prefix, else return `s` unchanged (character-level, which agrees with
Go's byte-level test on ASCII prefixes). -/
def trimPre (s pre : String) : String :=
  if pre.data.isPrefixOf s.data then ⟨s.data.drop pre.data.length⟩ else s

/-- Mirrors `refShort` (main.go:309-313): strip `refs/heads/`, then `refs/`. -/
def refShort (ref : String) : String := trimPre (trimPre ref "refs/heads/") "refs/"

/-- The Source->Target column of a table row (main.go:211). -/
def sourceTargetColumn (pr : PullRequest) : String :=
  refShort pr.sourceRefName ++ "->" ++ refShort pr.targetRefName

/-- Claim C5: branch-reference shortening strips the refs/heads/ or refs/
prefix: "refs/heads/main" maps to "main", "refs/pull/3/merge" maps to
"pull/3/merge", a name with neither prefix is unchanged, and the
source/target column renders as the shortened names joined by "->". -/
theorem ref_shortening :
    refShort "refs/heads/main" = "main" ∧
    refShort "refs/pull/3/merge" = "pull/3/merge" ∧
    (∀ s : String, ("refs/heads/" : String).data.isPrefixOf s.data = false →
      ("refs/" : String).data.isPrefixOf s.data = false → refShort s = s) ∧
    (∀ pr : PullRequest,
      sourceTargetColumn pr = refShort pr.sourceRefName ++ "->" ++ refShort pr.targetRefName) := by
  refine ⟨by decide, by decide, ?_, fun pr => rfl⟩
  intro s h1 h2
  have g1 : ¬ (("refs/heads/" : String).data.isPrefixOf s.data = true) := by
    rw [h1]; exact Bool.false_ne_true
  have g2 : ¬ (("refs/" : String).data.isPrefixOf s.data = true) := by
    rw [h2]; exact Bool.false_ne_true
  unfold refShort trimPre
  rw [if_neg g1, if_neg g2]

/-- Claim C5 witness: a branch name with neither prefix is unchanged. -/
theorem ref_shortening_witness :
    ("refs/heads/" : String).data.isPrefixOf ("main" : String).data = false ∧
      ("refs/" : String).data.isPrefixOf ("main" : String).data = false ∧
      refShort "main" = "main" :=
  ⟨by decide, by decide, ref_shortening.2.2.1 "main" (by decide) (by decide)⟩

/-! ## HTTP control flow

A request outcome is passed explicitly: either the Go `client.Do` call (or
request construction) failed, or a response arrived with a status code and
a body, the body represented by its decode outcomes. -/

/-- Outcome of one HTTP request. -/
inductive HttpAttempt (β : Type) where
  | transportError
  | response (status : Nat) (body : β)
deriving DecidableEq, Repr

/-- Decode outcomes of a pull-request-list response body: the strict decode
(`DisallowUnknownFields`, main.go:170-173) and the permissive decode of the
`loose` shape (main.go:187-193) of the same bytes; `none` is a decode error. -/
structure RawListBody where
  strictDecode : Option PrResponse
  looseDecode : Option (List PullRequest)
deriving DecidableEq, Repr

/-- The errors `fetchActivePRs` can return (main.go:159, 164, 167, 181, 185,
192); all are fatal in `main` (main.go:93-95). -/
inductive FetchError where
  | transport
  | authFailed
  | requestFailed (status : Nat)
  | decodeFailed
deriving DecidableEq, Repr

/-- Mirrors `fetchActivePRs` (main.go:135-198).  `first` is the outcome of
the original request, `second` the outcome of the re-issued identical
request; the code consults `second` only when the strict decode of a 2xx
`first` body fails. -/
def fetchActivePRs : HttpAttempt RawListBody → HttpAttempt RawListBody →
    Except FetchError (List PullRequest)
  | .transportError, _ => .error .transport
  | .response st body, second =>
    if st = 401 ∨ st = 403 then .error .authFailed
    else if st < 200 ∨ 300 ≤ st then .error (.requestFailed st)
    else
      match body.strictDecode with
      | some prr => .ok prr.value
      | none =>
        match second with
        | .transportError => .error .transport
        | .response st2 body2 =>
          if st2 < 200 ∨ 300 ≤ st2 then .error (.requestFailed st2)
          else
            match body2.looseDecode with
            | none => .error .decodeFailed
            | some v => .ok v

/-- `fetchActivePRs` over a stream of request outcomes, indexed by attempt. -/
def fetchActivePRsSeq (respond : Nat → HttpAttempt RawListBody) :
    Except FetchError (List PullRequest) :=
  fetchActivePRs (respond 0) (respond 1)

/-- Mirrors `getPRStatusOverall` (main.go:231-307) with the outcome of the
per-pull-request status request passed explicitly; a request-construction
failure (main.go:239-241) is folded into `transportError`, which the code
maps to the same label.  The decoded body is `none` on a JSON decode error
(main.go:260-262). -/
def getPRStatusOverall : HttpAttempt (Option (List PrStatus)) → String
  | .transportError => "Unknown"
  | .response st body =>
    if st = 401 ∨ st = 403 then "Unauthorized"
    else if st < 200 ∨ 300 ≤ st then "Unknown"
    else
      match body with
      | none => "Unknown"
      | some statuses => reduceStatuses statuses

/-- One rendered table row (main.go:215-225). -/
structure Row where
  prId : String
  title : String
  author : String
  repo : String
  sourceTarget : String
  votes : String
  checks : String
  created : String
  url : String
deriving DecidableEq, Repr

/-- The row built for one pull request in the `printTable` loop
(main.go:206-226); `humanizeTime` abstracts the external `humanize.Time`. -/
def buildRow (humanizeTime : Int → String) (pr : PullRequest)
    (fetch : HttpAttempt (Option (List PrStatus))) : Row :=
  { prId := toString pr.pullRequestId
    title := pr.title
    author := pr.createdBy.displayName
    repo := pr.repository.name
    sourceTarget := sourceTargetColumn pr
    votes := summarizeVotesTyped pr.reviewers
    checks := getPRStatusOverall fetch
    created := humanizeTime pr.creationDate
    url := pr.links.webHref }

/-- The full row list of `printTable` (main.go:200-229): one row per pull
request, each depending only on its own pull request and its own status
fetch outcome. -/
def buildRows (humanizeTime : Int → String) (prs : List PullRequest)
    (fetch : PullRequest → HttpAttempt (Option (List PrStatus))) : List Row :=
  prs.map (fun pr => buildRow humanizeTime pr (fetch pr))

/-- Claim C7: a 401/403 status-call response yields "Unauthorized" whatever
the body; a transport failure, any other non-2xx status, or a decode failure
yields "Unknown"; row building is total (one row per pull request, so the run
never aborts) and a status outcome influences only the checks column of its
own row. -/
theorem status_fetch_error_handling :
    (∀ (st : Nat) (body : Option (List PrStatus)), st = 401 ∨ st = 403 →
      getPRStatusOverall (.response st body) = "Unauthorized") ∧
    getPRStatusOverall (HttpAttempt.transportError (β := Option (List PrStatus))) = "Unknown" ∧
    (∀ (st : Nat) (body : Option (List PrStatus)), ¬ (st = 401 ∨ st = 403) →
      st < 200 ∨ 300 ≤ st → getPRStatusOverall (.response st body) = "Unknown") ∧
    (∀ st : Nat, 200 ≤ st → st < 300 →
      getPRStatusOverall (.response st (none : Option (List PrStatus))) = "Unknown") ∧
    (∀ h prs fetch, (buildRows h prs fetch).length = prs.length) ∧
    (∀ h pr o o', buildRow h pr o = { buildRow h pr o' with checks := getPRStatusOverall o }) := by
  refine ⟨?_, rfl, ?_, ?_, ?_, ?_⟩
  · intro st body h
    simp only [getPRStatusOverall]
    rw [if_pos h]
  · intro st body h1 h2
    simp only [getPRStatusOverall]
    rw [if_neg h1, if_pos h2]
  · intro st h1 h2
    simp only [getPRStatusOverall]
    rw [if_neg (by omega), if_neg (by omega)]
  · intro h prs fetch
    unfold buildRows
    exact List.length_map prs _
  · intro h pr o o'
    rfl

/-- Claim C7 witness: a 401 with a decoded failed check still reads
"Unauthorized", and a 500 with an undecodable body reads "Unknown". -/
theorem status_fetch_error_handling_witness :
    getPRStatusOverall (.response 401 (some [sampleFailed])) = "Unauthorized" ∧
      getPRStatusOverall (.response 500 (none : Option (List PrStatus))) = "Unknown" :=
  ⟨status_fetch_error_handling.1 401 (some [sampleFailed]) (Or.inl rfl),
    status_fetch_error_handling.2.2.1 500 none (by omega) (by omega)⟩

/-- Claim C8: the list fetch decodes strictly first (a 2xx response whose
strict decode succeeds is returned without consulting the retry); on a strict
decode failure the re-issued request is decoded permissively and its value
returned; a transport error, non-2xx status, or decode error on the retry is
a fatal error; and the outcome depends only on the first two attempts. -/
theorem list_fetch_strict_then_permissive :
    (∀ (st : Nat) (body : RawListBody) (second : HttpAttempt RawListBody) (prr : PrResponse),
      200 ≤ st → st < 300 → body.strictDecode = some prr →
      fetchActivePRs (.response st body) second = .ok prr.value) ∧
    (∀ (st : Nat) (body : RawListBody), 200 ≤ st → st < 300 → body.strictDecode = none →
      fetchActivePRs (.response st body) .transportError = .error .transport ∧
      (∀ (st2 : Nat) (body2 : RawListBody) (v : List PullRequest),
        200 ≤ st2 → st2 < 300 → body2.looseDecode = some v →
        fetchActivePRs (.response st body) (.response st2 body2) = .ok v) ∧
      (∀ (st2 : Nat) (body2 : RawListBody), st2 < 200 ∨ 300 ≤ st2 →
        fetchActivePRs (.response st body) (.response st2 body2)
          = .error (.requestFailed st2)) ∧
      (∀ (st2 : Nat) (body2 : RawListBody), 200 ≤ st2 → st2 < 300 →
        body2.looseDecode = none →
        fetchActivePRs (.response st body) (.response st2 body2) = .error .decodeFailed)) ∧
    (∀ f g : Nat → HttpAttempt RawListBody, f 0 = g 0 → f 1 = g 1 →
      fetchActivePRsSeq f = fetchActivePRsSeq g) := by
  refine ⟨?_, ?_, ?_⟩
  · intro st body second prr h1 h2 hd
    simp only [fetchActivePRs]
    rw [if_neg (by omega), if_neg (by omega), hd]
  · intro st body h1 h2 hd
    refine ⟨?_, ?_, ?_, ?_⟩
    · simp only [fetchActivePRs]
      rw [if_neg (by omega), if_neg (by omega), hd]
    · intro st2 body2 v h3 h4 hl
      simp only [fetchActivePRs]
      rw [if_neg (by omega), if_neg (by omega), hd, if_neg (by omega), hl]
    · intro st2 body2 h3
      simp only [fetchActivePRs]
      rw [if_neg (by omega), if_neg (by omega), hd, if_pos h3]
    · intro st2 body2 h3 h4 hl
      simp only [fetchActivePRs]
      rw [if_neg (by omega), if_neg (by omega), hd, if_neg (by omega), hl]
  · intro f g e0 e1
    unfold fetchActivePRsSeq
    rw [e0, e1]

/-- Claim C8 witness: a 200 response whose strict decode succeeds with an
empty pull-request list returns that list even when any retry would fail. -/
theorem list_fetch_strict_then_permissive_witness :
    fetchActivePRs (.response 200 ⟨some ⟨[], 0⟩, none⟩) .transportError
      = .ok ([] : List PullRequest) :=
  list_fetch_strict_then_permissive.1 200 ⟨some ⟨[], 0⟩, none⟩ .transportError ⟨[], 0⟩
    (by omega) (by omega) rfl

/-- Claim C10: on the permissive-retry path (first response 2xx, strict
decode failed), a 401/403 on the re-issued request produces the generic
`requestFailed` error, which differs from the dedicated `authFailed` error
that a 401/403 on the first attempt produces; the program thus aborts on an
authentication failure without its authentication-specific message. -/
theorem retry_auth_is_generic_failure :
    (∀ (st : Nat) (body body2 : RawListBody), 200 ≤ st → st < 300 →
      body.strictDecode = none →
      fetchActivePRs (.response st body) (.response 401 body2)
          = .error (.requestFailed 401) ∧
      fetchActivePRs (.response st body) (.response 403 body2)
          = .error (.requestFailed 403)) ∧
    (∀ (b : RawListBody) (second : HttpAttempt RawListBody),
      fetchActivePRs (.response 401 b) second = .error .authFailed ∧
      fetchActivePRs (.response 403 b) second = .error .authFailed) ∧
    FetchError.requestFailed 401 ≠ FetchError.authFailed ∧
    FetchError.requestFailed 403 ≠ FetchError.authFailed := by
  refine ⟨?_, ?_, by decide, by decide⟩
  · intro st body body2 h1 h2 hd
    constructor <;>
      · simp only [fetchActivePRs]
        rw [if_neg (by omega), if_neg (by omega), hd, if_pos (by omega)]
  · intro b second
    constructor <;>
      · simp only [fetchActivePRs]
        rw [if_pos (by simp)]

/-- Claim C10 witness: concrete runs of the two authentication-failure
placements, with their differing errors. -/
theorem retry_auth_is_generic_failure_witness :
    fetchActivePRs (.response 200 ⟨none, none⟩) (.response 401 ⟨none, none⟩)
        = .error (.requestFailed 401) ∧
      fetchActivePRs (.response 401 ⟨none, none⟩) .transportError = .error .authFailed :=
  ⟨(retry_auth_is_generic_failure.1 200 ⟨none, none⟩ ⟨none, none⟩
      (by omega) (by omega) rfl).1,
    (retry_auth_is_generic_failure.2.1 ⟨none, none⟩ .transportError).1⟩

/-! ## Pull-request-list query construction (main.go:108-144) -/

/-- Mirrors `config` (main.go:81-87). -/
structure Config where
  org : String
  project : String
  pat : String
  top : Int
  apiVer : String
deriving DecidableEq, Repr

/-- The default of the `--top` flag (main.go:112). -/
def defaultTop : Int := 50

/-- The query parameters set by `fetchActivePRs` (main.go:137-142):
`searchCriteria.status=active` always, `$top` only when `cfg.top > 0`,
`api-version` always. -/
def prListQueryParams (cfg : Config) : List (String × String) :=
  [("searchCriteria.status", "active")]
    ++ (if 0 < cfg.top then [("$top", toString cfg.top)] else [])
    ++ [("api-version", cfg.apiVer)]

/-- Claim C9: the pull-request-list request carries a `$top` parameter equal
to `top` exactly when `top > 0`; for `top ≤ 0` no `$top` parameter is
present; the flag's default is 50 (one of the documented 50-or-100 pair). -/
theorem top_parameter_iff_positive :
    (∀ cfg : Config, 0 < cfg.top → ("$top", toString cfg.top) ∈ prListQueryParams cfg) ∧
    (∀ cfg : Config, cfg.top ≤ 0 → ∀ v : String, ("$top", v) ∉ prListQueryParams cfg) ∧
    (defaultTop = 50 ∨ defaultTop = 100) := by
  refine ⟨?_, ?_, Or.inl rfl⟩
  · intro cfg h
    unfold prListQueryParams
    rw [if_pos h]
    simp
  · intro cfg h v
    unfold prListQueryParams
    rw [if_neg (by omega)]
    intro hm
    rcases List.mem_append.mp hm with hm | hm
    · rcases List.mem_append.mp hm with hm | hm <;> simp_all
    · simp_all

/-- Claim C9 witness: with top = 50 the parameter is present; with top = 0 it
is absent. -/
theorem top_parameter_iff_positive_witness :
    ("$top", "50") ∈ prListQueryParams ⟨"o", "p", "t", 50, "7.1-preview.1"⟩ ∧
      ("$top", "50") ∉ prListQueryParams ⟨"o", "p", "t", 0, "7.1-preview.1"⟩ :=
  ⟨top_parameter_iff_positive.1 ⟨"o", "p", "t", 50, "7.1-preview.1"⟩ (by decide),
    top_parameter_iff_positive.2.1 ⟨"o", "p", "t", 0, "7.1-preview.1"⟩ (by decide) "50"⟩

end LazyDevOps
